import Mathlib

/-
  Verification development for the video-share-movie repository.

  The repository shares a locally playing video from a primary browser
  window to a secondary window it opens, negotiating a WebRTC peer
  session over window.postMessage signaling.  This file gives a shallow
  embedding of the signaling / connection-lifecycle core:

  * `WebRTConnectionService` (src/src/webrtc/WebRTCService.ts and its
    identical twin bundled in src/src/components/captureVideoStream.ts)
    as a state-transition system `SvcState` with one function per
    method;
  * the responder hook of src/src/components/SeondaryPlayer/useWebRTC.ts
    (first revision in the file) as `ResponderState`;
  * the primary controller `useVideo` of src/unnamed/part_005 (second
    revision) as `PrimState`, the secondary controller `useVideo` of
    src/unnamed/part_005 (first revision) as `SecVState`, and the
    secondary `togglePlayOnSecondary` of
    src/src/components/SeondaryPlayer/useWebRTC.ts (second revision) as
    `SecToggleState`;
  * the connection-state fallback handler of
    src/src/components/PrimaryPlayer/PrimaryPlayer.tsx (second
    revision).

  Platform primitives (RTCPeerConnection, captureStream, postMessage)
  are embedded by their observable contract: the signaling-state
  machine of setLocalDescription / setRemoteDescription /
  addIceCandidate, a capture primitive that either is unsupported or
  yields a stream holding a list of tracks, and append-only logs of
  sent envelopes, applied ICE candidates, stopped tracks and status
  reports.  Each browsing context is single threaded, so each handler
  runs as one atomic step.
-/

namespace VideoShareMovie

/-- Role of one side of the session (`PeerRole` in the source). -/
inductive PeerRoleT
  | primary
  | secondary
  deriving Repr, DecidableEq

/-- Envelope sent over the window.postMessage channel.  Plain control
strings are `control`; the typed objects carry their payload.  An ICE
candidate payload is abstracted to a numeric id, `none` being the
end-of-candidates marker. -/
inductive Envelope
  | offer (sdp : String)
  | answer (sdp : String)
  | iceCandidate (candidate : Option Nat)
  | control (value : String)
  | fallbackVideo (sourceUrl : String)
  deriving Repr, DecidableEq

/-- Result of `captureVideoStream`: the platform either has no capture
primitive (the function throws) or yields a stream holding the given
list of track ids. -/
inductive CaptureResult
  | unsupported
  | stream (tracks : List Nat)
  deriving Repr, DecidableEq

/-- Signaling state of a live RTCPeerConnection, as relevant here. -/
inductive Signaling
  | stable
  | haveLocalOffer
  | haveRemoteOffer
  deriving Repr, DecidableEq

/-- Inbound message as seen by a message listener, after the platform
has delivered it: either one of the typed WebRTC envelopes, a plain
control string, or anything else. -/
inductive Msg
  | offerMsg (sdp : String)
  | answerMsg (sdp : String)
  | iceMsg (candidate : Option Nat)
  | ctrl (value : String)
  | otherMsg
  deriving Repr, DecidableEq

/-- State of one `WebRTConnectionService` instance
(src/src/components/captureVideoStream.ts, second revision; the class
in src/src/webrtc/WebRTCService.ts is line-for-line the same logic).

`pcSignaling = none` means `this.peerConnection === null`.  `stops` is
the log of `track.stop()` calls, `applied` the log of successful
`addIceCandidate` calls, `sent` the log of delivered `postMessage`
calls, `reports` the log of status-callback invocations
`(message, isError)`. -/
structure SvcState where
  pcSignaling : Option Signaling
  localDesc : Option String
  remoteDesc : Option String
  stream : Option (List Nat)
  srcObjectSet : Bool
  remoteOpen : Bool
  applied : List Nat
  stops : List Nat
  sent : List Envelope
  reports : List (String × Bool)
  deriving Repr, DecidableEq

/-- Freshly constructed service: no peer connection, no stream. -/
def svcInit : SvcState :=
  { pcSignaling := none
    localDesc := none
    remoteDesc := none
    stream := none
    srcObjectSet := false
    remoteOpen := true
    applied := []
    stops := []
    sent := []
    reports := [] }

/-- `this.statusCallback(message, isError)`. -/
def svcReport (s : SvcState) (message : String) (isError : Bool) : SvcState :=
  { s with reports := s.reports ++ [(message, isError)] }

/-- `sendMessage`: posts to the remote window unless it is closed
(`if (this.remoteWindow && !this.remoteWindow.closed)`). -/
def svcSend (s : SvcState) (e : Envelope) : SvcState :=
  if s.remoteOpen then { s with sent := s.sent ++ [e] } else s

/-- `cleanup()`: close and null the peer connection, stop every track
of the stream and null it, null the video element's srcObject, and
report the empty status. -/
def svcCleanup (s : SvcState) : SvcState :=
  let s1 := if s.pcSignaling.isSome then { s with pcSignaling := none } else s
  let s2 :=
    match s1.stream with
    | some ts => { s1 with stops := s1.stops ++ ts, stream := none }
    | none => s1
  let s3 := if s2.srcObjectSet then { s2 with srcObjectSet := false } else s2
  svcReport s3 "" false

/-- `createOffer(videoElement)` (primary role).  `ready` abstracts
`videoElement.readyState >= 2`; waiting for `canplay` and the
`video.play()` call have no further observable effect here.  `capture`
is the outcome of `captureVideoStream(videoElement)`; a zero-track
stream aborts before any peer connection is made.  On the success path
a fresh peer connection is created, the tracks attached, the local
offer created and set, and the offer envelope posted. -/
def svcCreateOffer (ready : Bool) (capture : CaptureResult) (s : SvcState) :
    SvcState :=
  let s := svcReport s "Setting up WebRTC connection..." false
  let s := if ready then s else svcReport s "Waiting for video to load..." false
  let s := svcReport s "Capturing video stream..." false
  match capture with
  | .unsupported =>
      svcReport s "WebRTC setup error: Video capture not supported in this browser" true
  | .stream ts =>
      let s := { s with stream := some ts }
      if ts.length = 0 then
        svcReport s "Error: No video tracks available" true
      else
        let s := { s with pcSignaling := some .stable, localDesc := none,
                          remoteDesc := none }
        let s := { s with localDesc := some "offer-sdp",
                          pcSignaling := some .haveLocalOffer }
        let s := svcSend s (.offer "offer-sdp")
        svcReport s "WebRTC offer sent, waiting for answer..." false

/-- `handleOffer(offer)` (secondary role): fresh peer connection, set
the remote description (valid in the fresh `stable` state), create and
set the local answer, post the answer envelope. -/
def svcHandleOffer (sdp : String) (s : SvcState) : SvcState :=
  let s := svcReport s "Setting up WebRTC connection..." false
  let s := { s with pcSignaling := some .stable, localDesc := none,
                    remoteDesc := none }
  let s := { s with remoteDesc := some sdp, pcSignaling := some .haveRemoteOffer }
  let s := { s with localDesc := some "answer-sdp", pcSignaling := some .stable }
  let s := svcSend s (.answer "answer-sdp")
  svcReport s "WebRTC connection established, waiting for video..." false

/-- `handleAnswer(answer)` (primary role): with no peer connection the
guard reports an error and returns; with a pending local offer the
platform accepts the remote description and the session reaches
`stable`; in any other signaling state `setRemoteDescription` rejects
with an InvalidStateError which the catch turns into an error report,
leaving the descriptions untouched. -/
def svcHandleAnswer (a : String) (s : SvcState) : SvcState :=
  match s.pcSignaling with
  | none => svcReport s "No peer connection available" true
  | some sig =>
      if sig = .haveLocalOffer then
        let s := { s with remoteDesc := some a, pcSignaling := some .stable }
        svcReport s "WebRTC connection established" false
      else
        svcReport s "WebRTC error: InvalidStateError" true

/-- `handleIceCandidate(candidate)`: with no peer connection the guard
reports an error and returns (the candidate is dropped — this class
has no pending queue).  Otherwise `null` is skipped; a real candidate
is applied, which the platform rejects when no remote description is
set yet. -/
def svcHandleIceCandidate (c : Option Nat) (s : SvcState) : SvcState :=
  match s.pcSignaling with
  | none =>
      svcReport s "Error adding ICE candidate. No peer connection set up." true
  | some _ =>
      match c with
      | none => s
      | some x =>
          if s.remoteDesc = none then
            svcReport s "Error adding ICE candidate: InvalidStateError" true
          else
            { s with applied := s.applied ++ [x] }

/-- Events driving one service instance. -/
inductive SvcEvent
  | createOfferEv (ready : Bool) (capture : CaptureResult)
  | recvOffer (sdp : String)
  | recvAnswer (sdp : String)
  | recvCand (candidate : Option Nat)
  | cleanupEv
  deriving Repr, DecidableEq

/-- One event step of the service. -/
def svcStep (s : SvcState) : SvcEvent → SvcState
  | .createOfferEv ready capture => svcCreateOffer ready capture s
  | .recvOffer sdp => svcHandleOffer sdp s
  | .recvAnswer a => svcHandleAnswer a s
  | .recvCand c => svcHandleIceCandidate c s
  | .cleanupEv => svcCleanup s

/-- Run a sequence of events from the freshly constructed service. -/
def svcRun (evs : List SvcEvent) : SvcState :=
  evs.foldl svcStep svcInit

/-- Is the event a `createOffer` call? -/
def isCreateOfferEv : SvcEvent → Bool
  | .createOfferEv _ _ => true
  | _ => false

/-- State of the responder hook
(src/src/components/SeondaryPlayer/useWebRTC.ts, first revision).
`peerConnection` models `peerConnectionRef.current !== null`; `pending`
is `pendingIceCandidatesRef.current`; `remoteDescriptionSet` records
whether the current peer connection has its remote description set
(cleared when that connection is closed).  `videoPresent` /
`videoPaused` model `videoRef.current` and its paused flag;
`openerPresent` models `window.opener`. -/
structure ResponderState where
  openerPresent : Bool
  videoPresent : Bool
  videoPaused : Bool
  peerConnection : Bool
  remoteDescriptionSet : Bool
  pending : List Nat
  applied : List Nat
  stream : Option (List Nat)
  stops : List Nat
  sent : List Envelope
  reports : List (String × Bool)
  deriving Repr, DecidableEq

/-- Responder hook state on mount: nothing created yet. -/
def respInit : ResponderState :=
  { openerPresent := true
    videoPresent := true
    videoPaused := false
    peerConnection := false
    remoteDescriptionSet := false
    pending := []
    applied := []
    stream := none
    stops := []
    sent := []
    reports := [] }

/-- Responder `cleanup`: close and null the peer connection (taking
the remote description with it), stop every track of the stream and
null it, and report the empty status.  Note that the pending ICE
candidate queue is left untouched. -/
def respCleanup (s : ResponderState) : ResponderState :=
  let s1 :=
    if s.peerConnection then
      { s with peerConnection := false, remoteDescriptionSet := false }
    else s
  let s2 :=
    match s1.stream with
    | some ts => { s1 with stops := s1.stops ++ ts, stream := none }
    | none => s1
  { s2 with reports := s2.reports ++ [("", false)] }

/-- Responder `handleWebRTCOffer`: clean up any existing peer
connection, create a fresh one, set the remote description from the
offer, create and set the local answer, post the answer envelope to
the opener, then flush every pending ICE candidate in arrival order
and empty the queue. -/
def handleWebRTCOffer (s : ResponderState) : ResponderState :=
  let s0 := if s.peerConnection then respCleanup s else s
  let s1 := { s0 with peerConnection := true, remoteDescriptionSet := false }
  let s2 := { s1 with remoteDescriptionSet := true }
  let s3 :=
    if s2.openerPresent then
      { s2 with sent := s2.sent ++ [Envelope.answer "answer-sdp"],
                reports := s2.reports ++ [("WebRTC answer sent, connecting...", false)] }
    else s2
  { s3 with applied := s3.applied ++ s3.pending, pending := [] }

/-- Responder `handleWebRTCIceCandidate`: a `null` candidate is the
end-of-candidates marker and returns immediately; otherwise the
candidate is applied when a peer connection exists and pushed onto the
pending queue when none does. -/
def handleWebRTCIceCandidate (c : Option Nat) (s : ResponderState) :
    ResponderState :=
  match c with
  | none => s
  | some x =>
      if s.peerConnection then { s with applied := s.applied ++ [x] }
      else { s with pending := s.pending ++ [x] }

/-- Responder message dispatch (body of the `messageListener` after its
source check): the control strings `play` / `pause` drive the video
element, typed objects are routed to the offer / ICE handlers,
anything else is ignored. -/
def respDispatch (m : Msg) (s : ResponderState) : ResponderState :=
  match m with
  | .ctrl c =>
      if c = "play" then
        if s.videoPresent && s.videoPaused then { s with videoPaused := false }
        else s
      else if c = "pause" then
        if s.videoPresent && !s.videoPaused then { s with videoPaused := true }
        else s
      else s
  | .offerMsg _ => handleWebRTCOffer s
  | .answerMsg _ => s
  | .iceMsg c => handleWebRTCIceCandidate c s
  | .otherMsg => s

/-- Responder `messageListener`: drop any message whose source is not
`window.opener` (`if (event.source !== window.opener) return`). -/
def respListener (opener : Option Nat) (src : Nat) (m : Msg)
    (s : ResponderState) : ResponderState :=
  if opener = some src then respDispatch m s else s

/-- Events driving the responder hook. -/
inductive REvent
  | cand (c : Option Nat)
  | offerEv
  | unmount
  deriving Repr, DecidableEq

/-- One event step of the responder hook. -/
def respStep (s : ResponderState) : REvent → ResponderState
  | .cand c => handleWebRTCIceCandidate c s
  | .offerEv => handleWebRTCOffer s
  | .unmount => respCleanup s

/-- Run a sequence of responder events from the mount state. -/
def respRun (evs : List REvent) : ResponderState :=
  evs.foldl respStep respInit

/-- The responder invariant for claim C1: the peer connection exists
exactly when its remote description is set, and once the remote
description is set the pending queue is empty. -/
def respInv (s : ResponderState) : Prop :=
  s.peerConnection = s.remoteDescriptionSet
  ∧ (s.remoteDescriptionSet = true → s.pending = [])

/-- State of the primary controller `useVideo`
(src/unnamed/part_005, second revision).  `service` is
`webRTCServiceRef.current`, `intervalActive` the secondary liveness
poll `secondaryCheckIntervalRef`, `isPaused` the React state of the
same name, `videoPresent` / `videoPaused` model `videoRef.current` and
its paused flag. -/
structure PrimState where
  videoPresent : Bool
  videoPaused : Bool
  isPaused : Bool
  isSecondaryOpen : Bool
  intervalActive : Bool
  service : Option SvcState
  reports : List (String × Bool)
  deriving Repr, DecidableEq

/-- `updateStatus(message, isError)` on the primary side. -/
def primReport (p : PrimState) (message : String) (isError : Bool) :
    PrimState :=
  { p with reports := p.reports ++ [(message, isError)] }

/-- Primary `cleanup`: clear the liveness interval, run the service's
own cleanup and null the service reference, report the empty status. -/
def primCleanup (p : PrimState) : PrimState :=
  let p1 := if p.intervalActive then { p with intervalActive := false } else p
  let p2 :=
    match p1.service with
    | some _ => { p1 with service := none }
    | none => p1
  primReport p2 "" false

/-- Primary `handleMessage` (string control signals from the secondary
window): `windowClosed` tears the session down, `windowReloading` is a
status report only, `windowReloaded` / `windowReady` start the offer
(`createOffer` on the service when the video element exists), `play` /
`pause` drive the local video and `isPaused` without sending anything.
`ready` and `capture` are the platform inputs consumed by a triggered
`createOffer`. -/
def primHandleMessage (ready : Bool) (capture : CaptureResult) (m : String)
    (p : PrimState) : PrimState :=
  if m = "windowClosed" then
    primCleanup { p with isSecondaryOpen := false }
  else if m = "windowReloading" then
    primReport p "Secondary window is reloading..." false
  else if m = "windowReloaded" ∨ m = "windowReady" then
    let p := primReport p "Secondary window is ready, setting up connection..." false
    if p.videoPresent then
      { p with service := p.service.map (svcCreateOffer ready capture) }
    else p
  else if m = "play" then
    if p.videoPresent then { p with videoPaused := false, isPaused := false }
    else p
  else if m = "pause" then
    if p.videoPresent then { p with videoPaused := true, isPaused := true }
    else p
  else p

/-- Primary `togglePause`: flip the local video element and `isPaused`,
then notify the secondary window through the service (whose
`sendMessage` drops the envelope when the remote window is closed). -/
def togglePause (p : PrimState) : PrimState :=
  if p.videoPresent then
    if p.videoPaused then
      let p := { p with videoPaused := false, isPaused := false }
      match p.service with
      | some svc => { p with service := some (svcSend svc (Envelope.control "play")) }
      | none => p
    else
      let p := { p with videoPaused := true, isPaused := true }
      match p.service with
      | some svc => { p with service := some (svcSend svc (Envelope.control "pause")) }
      | none => p
  else p

/-- Dispatch of `WebRTConnectionService.handleMessage` on the primary
side: typed WebRTC envelopes go to the service handlers, everything
else is forwarded to the `onMessageReceived` callback, which the
primary binds to `handleMessage` (non-strings are ignored there). -/
def primDispatch (ready : Bool) (capture : CaptureResult) (m : Msg)
    (p : PrimState) : PrimState :=
  match m with
  | .offerMsg sdp => { p with service := p.service.map (svcHandleOffer sdp) }
  | .answerMsg a => { p with service := p.service.map (svcHandleAnswer a) }
  | .iceMsg c => { p with service := p.service.map (svcHandleIceCandidate c) }
  | .ctrl c => primHandleMessage ready capture c p
  | .otherMsg => p

/-- Primary `messageListener`: dispatch only when the message source is
the opened secondary window and the service exists
(`if (event.source === secondaryRef.current && webRTCServiceRef.current)`). -/
def primListener (secondaryRef : Option Nat) (src : Nat) (ready : Bool)
    (capture : CaptureResult) (m : Msg) (p : PrimState) : PrimState :=
  if secondaryRef = some src ∧ p.service.isSome = true then
    primDispatch ready capture m p
  else p

/-- State of the secondary controller `useVideo`
(src/unnamed/part_005, first revision). -/
structure SecVState where
  videoPresent : Bool
  videoPaused : Bool
  isPlaying : Bool
  service : Option SvcState
  deriving Repr, DecidableEq

/-- Secondary `handleMessage` callback (non-string messages are
ignored; `play` / `pause` drive the local video and the
`isPlayingRef`, sending nothing back). -/
def secVHandleControl (m : String) (s : SecVState) : SecVState :=
  if m = "play" then
    if s.videoPresent then { s with videoPaused := false, isPlaying := true }
    else s
  else if m = "pause" then
    if s.videoPresent then { s with videoPaused := true, isPlaying := false }
    else s
  else s

/-- Dispatch of `WebRTConnectionService.handleMessage` on the secondary
side of part_005. -/
def secVDispatch (m : Msg) (s : SecVState) : SecVState :=
  match s.service with
  | none => s
  | some svc =>
      match m with
      | .offerMsg sdp => { s with service := some (svcHandleOffer sdp svc) }
      | .answerMsg a => { s with service := some (svcHandleAnswer a svc) }
      | .iceMsg c => { s with service := some (svcHandleIceCandidate c svc) }
      | .ctrl c => secVHandleControl c s
      | .otherMsg => s

/-- Secondary `messageListener` of part_005: dispatch only when the
source is `window.opener` and the service exists
(`if (event.source === window.opener && webRTCServiceRef.current)`). -/
def secVListener (opener : Option Nat) (src : Nat) (m : Msg) (s : SecVState) :
    SecVState :=
  if opener = some src ∧ s.service.isSome = true then secVDispatch m s else s

/-- State used by `togglePlayOnSecondary`
(src/src/components/SeondaryPlayer/useWebRTC.ts, second revision):
local video element, `isPlayingRef`, `window.opener`, and the log of
envelopes posted directly to the opener. -/
structure SecToggleState where
  videoPresent : Bool
  videoPaused : Bool
  isPlaying : Bool
  openerPresent : Bool
  sent : List Envelope
  deriving Repr, DecidableEq

/-- `togglePlayOnSecondary`: flip the local video element and the
`isPlayingRef`, posting the matching control string to the opener when
it exists; returns `isPlayingRef.current`. -/
def togglePlayOnSecondary (s : SecToggleState) : SecToggleState × Bool :=
  if s.videoPresent then
    if s.videoPaused then
      let s1 := { s with videoPaused := false, isPlaying := true }
      let s2 :=
        if s1.openerPresent then
          { s1 with sent := s1.sent ++ [Envelope.control "play"] }
        else s1
      (s2, s2.isPlaying)
    else
      let s1 := { s with videoPaused := true, isPlaying := false }
      let s2 :=
        if s1.openerPresent then
          { s1 with sent := s1.sent ++ [Envelope.control "pause"] }
        else s1
      (s2, s2.isPlaying)
  else (s, s.isPlaying)

/-- Transport connection state
(`RTCPeerConnection.connectionState`). -/
inductive ConnState
  | new
  | connecting
  | connected
  | disconnected
  | failed
  | closed
  deriving Repr, DecidableEq

/-- Ambient references read by the fallback handler:
`videoRef.current?.src` and `secondWindowRef.current`. -/
structure FallbackCtx where
  videoSrc : Bool
  secondWindow : Bool
  deriving Repr, DecidableEq

/-- Envelopes posted by one firing of `onconnectionstatechange` in
`startWebRTCConnection`
(src/src/components/PrimaryPlayer/PrimaryPlayer.tsx, second revision):
on a transition into `failed` or `disconnected`, with a video src and
the second window available, the fallbackVideo envelope is posted at
once; no other branch posts anything. -/
def onConnectionStateChange (ctx : FallbackCtx) (st : ConnState) :
    List Envelope :=
  if (st = ConnState.failed ∨ st = ConnState.disconnected)
      ∧ ctx.videoSrc = true ∧ ctx.secondWindow = true then
    [Envelope.fallbackVideo "video-src"]
  else []

/-- Envelopes posted over a whole sequence of connection-state
transitions (the handler fires once per transition). -/
def connTraceEnvelopes (ctx : FallbackCtx) : List ConnState → List Envelope
  | [] => []
  | st :: tr => onConnectionStateChange ctx st ++ connTraceEnvelopes ctx tr

/-- Is the envelope a fallbackVideo envelope? -/
def isFallbackEnvelope : Envelope → Bool
  | .fallbackVideo _ => true
  | _ => false

/-- Is the envelope a WebRTC offer or answer? -/
def isOfferOrAnswerEnvelope : Envelope → Bool
  | .offer _ => true
  | .answer _ => true
  | _ => false

/-- Is the connection state one of the failure states the handler
reacts to? -/
def isFailureState : ConnState → Bool
  | .failed => true
  | .disconnected => true
  | _ => false

/-- Result of `new WebRTConnectionService(role, remoteWindow,
videoElement, ...)`: the fields a successfully constructed instance
holds.  Both references are non-nullable by construction. -/
structure ConstructedService where
  role : PeerRoleT
  remoteWindow : Nat
  videoElement : Nat
  deriving Repr, DecidableEq

/-- The `WebRTConnectionService` constructor: assign the role, then
throw when the remote window is null, then throw when the video
element is null, otherwise keep both (non-null) references. -/
def webRTConnectionServiceNew (role : PeerRoleT) (remoteWindow : Option Nat)
    (videoElement : Option Nat) : Except String ConstructedService :=
  match remoteWindow with
  | none => Except.error "Remote window is required for a WebRTC connection."
  | some w =>
      match videoElement with
      | none => Except.error "Video element is required for a WebRTC connection."
      | some v => Except.ok { role := role, remoteWindow := w, videoElement := v }

/-- Fixture: responder state with a live peer connection. -/
def respWithPC : ResponderState := { respInit with peerConnection := true }

/-- Fixture: service that has created and sent a local offer. -/
def svcHaveLocalOffer : SvcState :=
  { svcInit with pcSignaling := some Signaling.haveLocalOffer,
                 localDesc := some "offer-sdp" }

/-- Fixture: service with a live connection whose remote description is
set. -/
def svcWithRemoteDesc : SvcState :=
  { svcInit with pcSignaling := some Signaling.stable,
                 remoteDesc := some "offer-sdp" }

/-- Fixture: primary controller with an open secondary session. -/
def primLive : PrimState :=
  { videoPresent := true
    videoPaused := false
    isPaused := false
    isSecondaryOpen := true
    intervalActive := true
    service := some svcInit
    reports := [] }

/-- Fixture: secondary toggle state with a live opener. -/
def secLive : SecToggleState :=
  { videoPresent := true
    videoPaused := false
    isPlaying := true
    openerPresent := true
    sent := [] }

/-- Fixture: part_005 secondary controller with a paused video and no
service yet. -/
def secVLive : SecVState :=
  { videoPresent := true
    videoPaused := true
    isPlaying := false
    service := none }

/-- Projections of the service `cleanup` (helpers for C4 and C6): the
peer connection and the stream end up null and exactly the tracks of
the current stream are appended to the stop log. -/
theorem svcCleanup_fields (s : SvcState) :
    (svcCleanup s).pcSignaling = none
    ∧ (svcCleanup s).stream = none
    ∧ (svcCleanup s).stops = s.stops ++ s.stream.getD [] := by
  cases hpc : s.pcSignaling <;> cases hs : s.stream <;>
    cases hsrc : s.srcObjectSet <;>
      simp [svcCleanup, svcReport, hpc, hs, hsrc]

/-- No service event other than `createOffer` can leave the service
holding a pending local offer (helper for C6). -/
theorem svcStep_no_local_offer (s : SvcState) (e : SvcEvent)
    (he : isCreateOfferEv e = false)
    (h : s.pcSignaling ≠ some Signaling.haveLocalOffer) :
    (svcStep s e).pcSignaling ≠ some Signaling.haveLocalOffer := by
  cases e with
  | createOfferEv ready capture => simp [isCreateOfferEv] at he
  | recvOffer sdp =>
      simp only [svcStep, svcHandleOffer, svcSend, svcReport]
      split <;> simp
  | recvAnswer a =>
      cases hpc : s.pcSignaling with
      | none => simp [svcStep, svcHandleAnswer, hpc, svcReport]
      | some sig =>
          by_cases hsig : sig = Signaling.haveLocalOffer
          · simp [svcStep, svcHandleAnswer, hpc, hsig, svcReport]
          · simp [svcStep, svcHandleAnswer, hpc, hsig, svcReport]
  | recvCand c =>
      cases hpc : s.pcSignaling with
      | none => simp [svcStep, svcHandleIceCandidate, hpc, svcReport]
      | some sig =>
          have hsig : ¬sig = Signaling.haveLocalOffer :=
            fun hh => h (by rw [hpc, hh])
          cases c with
          | none => simp [svcStep, svcHandleIceCandidate, hpc, hsig]
          | some x =>
              by_cases hrd : s.remoteDesc = none <;>
                simp [svcStep, svcHandleIceCandidate, hpc, hrd, hsig, svcReport]
  | cleanupEv =>
      have hf := (svcCleanup_fields s).1
      show (svcCleanup s).pcSignaling ≠ some Signaling.haveLocalOffer
      rw [hf]
      simp

/-- Folding non-`createOffer` events never produces a pending local
offer (helper for C6). -/
theorem svcFold_no_local_offer (evs : List SvcEvent) :
    ∀ s : SvcState, evs.all (fun e => !isCreateOfferEv e) = true →
      s.pcSignaling ≠ some Signaling.haveLocalOffer →
      (evs.foldl svcStep s).pcSignaling ≠ some Signaling.haveLocalOffer := by
  induction evs with
  | nil => intro s _ h; exact h
  | cons e evs ih =>
      intro s hall h
      simp only [List.all_cons, Bool.and_eq_true] at hall
      exact ih _ hall.2
        (svcStep_no_local_offer s e (by simpa using hall.1) h)

/-- A claim-check example: with tracks present, `createOffer` does send
the offer envelope. -/
example :
    (svcCreateOffer true (.stream [0]) svcInit).sent = [.offer "offer-sdp"] := by
  decide

/-- Projections of `handleWebRTCOffer` (helper for C1): afterwards the
peer connection exists, the remote description is set and the pending
queue is empty. -/
theorem handleWebRTCOffer_fields (s : ResponderState) :
    (handleWebRTCOffer s).peerConnection = true
    ∧ (handleWebRTCOffer s).remoteDescriptionSet = true
    ∧ (handleWebRTCOffer s).pending = [] := by
  simp only [handleWebRTCOffer]
  split <;> split <;> simp

/-- Projections of `respCleanup` (helper for C1 and C4): afterwards no
peer connection remains, the remote description survives only if no
peer connection existed, and the pending queue is untouched. -/
theorem respCleanup_fields (s : ResponderState) :
    (respCleanup s).peerConnection = false
    ∧ (respCleanup s).remoteDescriptionSet
        = (!s.peerConnection && s.remoteDescriptionSet)
    ∧ (respCleanup s).pending = s.pending := by
  simp only [respCleanup]
  split <;> split <;> simp_all

/-- Stream and stop-log projections of the responder `cleanup`
(helper for C4). -/
theorem respCleanup_stops (r : ResponderState) :
    (respCleanup r).stream = none
    ∧ (respCleanup r).stops = r.stops ++ r.stream.getD [] := by
  cases hpc : r.peerConnection <;> cases hs : r.stream <;>
    simp [respCleanup, hpc, hs]

/-- Applying a non-null candidate with a live peer connection only
appends to the applied log (helper for C1 and C5). -/
theorem handleWebRTCIceCandidate_apply (s : ResponderState) (x : Nat)
    (h : s.peerConnection = true) :
    handleWebRTCIceCandidate (some x) s
      = { s with applied := s.applied ++ [x] } := by
  simp [handleWebRTCIceCandidate, h]

/-- Receiving a non-null candidate with no peer connection enqueues it
(helper for C1 and C5). -/
theorem handleWebRTCIceCandidate_enqueue (s : ResponderState) (x : Nat)
    (h : s.peerConnection = false) :
    handleWebRTCIceCandidate (some x) s
      = { s with pending := s.pending ++ [x] } := by
  simp [handleWebRTCIceCandidate, h]

/-- Receiving candidates with no peer connection only grows the pending
queue (helper for claim C1). -/
theorem ice_fold_pending (cs : List (Option Nat)) :
    ∀ s : ResponderState, s.peerConnection = false →
      (cs.foldl (fun t c => handleWebRTCIceCandidate c t) s).pending
          = s.pending ++ cs.filterMap id
      ∧ (cs.foldl (fun t c => handleWebRTCIceCandidate c t) s).applied
          = s.applied
      ∧ (cs.foldl (fun t c => handleWebRTCIceCandidate c t) s).peerConnection
          = false := by
  induction cs with
  | nil => intro s h; simp [h]
  | cons c cs ih =>
      intro s h
      cases c with
      | none =>
          simpa [handleWebRTCIceCandidate] using ih s h
      | some x =>
          have := ih { s with pending := s.pending ++ [x] } (by simp [h])
          simpa [handleWebRTCIceCandidate, h] using this

/-- Every responder event preserves the invariant (helper for C1). -/
theorem respStep_inv (s : ResponderState) (e : REvent) (h : respInv s) :
    respInv (respStep s e) := by
  obtain ⟨h1, h2⟩ := h
  cases e with
  | cand c =>
      cases c with
      | none => exact ⟨h1, h2⟩
      | some x =>
          cases hpc : s.peerConnection with
          | true =>
              show respInv (handleWebRTCIceCandidate (some x) s)
              rw [handleWebRTCIceCandidate_apply s x hpc]
              exact ⟨h1, fun hr => h2 hr⟩
          | false =>
              show respInv (handleWebRTCIceCandidate (some x) s)
              rw [handleWebRTCIceCandidate_enqueue s x hpc]
              refine ⟨h1, fun hr => absurd (h1.trans hr) ?_⟩
              simp [hpc]
  | offerEv =>
      obtain ⟨f1, f2, f3⟩ := handleWebRTCOffer_fields s
      exact ⟨f1.trans f2.symm, fun _ => f3⟩
  | unmount =>
      obtain ⟨f1, f2, f3⟩ := respCleanup_fields s
      show respInv (respCleanup s)
      refine ⟨?_, fun hr => ?_⟩
      · rw [f1, f2, h1]
        cases s.remoteDescriptionSet <;> simp
      · rw [f2, h1] at hr
        simp at hr

/-- Folding responder events preserves the invariant (helper for C1). -/
theorem respFold_inv (evs : List REvent) :
    ∀ s : ResponderState, respInv s → respInv (evs.foldl respStep s) := by
  induction evs with
  | nil => intro s h; exact h
  | cons e evs ih => intro s h; exact ih _ (respStep_inv s e h)

/-- The invariant holds in every reachable responder state
(helper for C1). -/
theorem respRun_inv (evs : List REvent) : respInv (respRun evs) :=
  respFold_inv evs respInit (by constructor <;> simp [respInit])

/-- With no live peer connection, applying the remote offer applies the
previously queued candidates after the already-applied ones, in queue
order (helper for C1). -/
theorem handleWebRTCOffer_applied (s : ResponderState)
    (h : s.peerConnection = false) :
    (handleWebRTCOffer s).applied = s.applied ++ s.pending := by
  simp only [handleWebRTCOffer, h]
  split <;> split <;> simp_all

/-- Claim C1.  Queued-candidate flush on the responder: for every
sequence `cs` of IceCandidate envelopes received from the mount state,
before any remote description is set, applying the remote offer
applies exactly the non-null candidates of `cs`, in original arrival
order, each exactly once, and leaves the pending queue empty; moreover
in every reachable responder state the pending queue is empty whenever
a remote description is set. -/
theorem pending_candidates_flushed_c1 (cs : List (Option Nat))
    (evs : List REvent) (h : (respRun evs).remoteDescriptionSet = true) :
    (handleWebRTCOffer
        (cs.foldl (fun t c => handleWebRTCIceCandidate c t) respInit)).applied
      = cs.filterMap id
    ∧ (handleWebRTCOffer
        (cs.foldl (fun t c => handleWebRTCIceCandidate c t) respInit)).pending
      = []
    ∧ (respRun evs).pending = [] := by
  obtain ⟨hp, ha, hpc⟩ := ice_fold_pending cs respInit rfl
  refine ⟨?_, (handleWebRTCOffer_fields _).2.2, (respRun_inv evs).2 h⟩
  rw [handleWebRTCOffer_applied _ hpc, hp, ha]
  simp [respInit]

/-- Witness for C1 at a concrete candidate sequence and event trace. -/
theorem pending_candidates_flushed_c1_witness :
    (handleWebRTCOffer
        ([some 1, none, some 2].foldl
          (fun t c => handleWebRTCIceCandidate c t) respInit)).applied
      = [some 1, none, some 2].filterMap id
    ∧ (handleWebRTCOffer
        ([some 1, none, some 2].foldl
          (fun t c => handleWebRTCIceCandidate c t) respInit)).pending
      = []
    ∧ (respRun [REvent.offerEv]).pending = [] :=
  pending_candidates_flushed_c1 [some 1, none, some 2] [REvent.offerEv]
    (by decide)

/-- Claim C2.  If capture succeeds but yields a stream with zero
tracks, `createOffer` reports the `NoTracksAvailable` error
("Error: No video tracks available", error flag set) and aborts: no
envelope at all (in particular no Offer) is sent for this handshake
attempt and no peer connection is created. -/
theorem zero_tracks_aborts_offer_c2 (ready : Bool) (s : SvcState) :
    (svcCreateOffer ready (.stream []) s).sent = s.sent
    ∧ ("Error: No video tracks available", true)
        ∈ (svcCreateOffer ready (.stream []) s).reports
    ∧ (svcCreateOffer ready (.stream []) s).pcSignaling = s.pcSignaling
    ∧ (svcCreateOffer ready (.stream []) s).localDesc = s.localDesc := by
  cases ready <;>
    simp [svcCreateOffer, svcReport]

/-- Claim C4.  Cleanup is idempotent on both implementations (the
service class and the responder hook): a second cleanup in a row adds
no track stop, and after cleanup (once or twice) the peer-connection
and stream references are null.  Both cleanups stop exactly the tracks
of the current stream once, so no track is ever double-stopped, and
both are total functions (no exception path exists). -/
theorem cleanup_idempotent_c4 (s : SvcState) (r : ResponderState) :
    (svcCleanup (svcCleanup s)).stops = s.stops ++ s.stream.getD []
    ∧ (svcCleanup (svcCleanup s)).stops = (svcCleanup s).stops
    ∧ (svcCleanup (svcCleanup s)).pcSignaling = none
    ∧ (svcCleanup (svcCleanup s)).stream = none
    ∧ (respCleanup (respCleanup r)).stops = r.stops ++ r.stream.getD []
    ∧ (respCleanup (respCleanup r)).stops = (respCleanup r).stops
    ∧ (respCleanup (respCleanup r)).peerConnection = false
    ∧ (respCleanup (respCleanup r)).stream = none := by
  obtain ⟨p1, p2, p3⟩ := svcCleanup_fields s
  obtain ⟨q1, q2, q3⟩ := svcCleanup_fields (svcCleanup s)
  obtain ⟨f1, f2⟩ := respCleanup_stops r
  obtain ⟨g1, g2⟩ := respCleanup_stops (respCleanup r)
  obtain ⟨c1, -, -⟩ := respCleanup_fields (respCleanup r)
  refine ⟨?_, ?_, q1, q2, ?_, ?_, c1, g1⟩
  · rw [q3, p2, p3]; simp
  · rw [q3, p2]; simp
  · rw [g2, f1, f2]; simp
  · rw [g2, f1]; simp

/-- Counterexample to claim C5.  The claim asserts that an IceCandidate
envelope received while the remote description is not yet set is
enqueued to the PendingCandidateQueue.  The `WebRTConnectionService`
handler cited by the claim has no such queue: a freshly constructed
service (no peer connection, hence no remote description) that
receives candidate 7 merely emits the error report and drops the
candidate — it is never applied, even after an offer later sets the
remote description, whereas enqueue-and-flush semantics would apply
it. -/
theorem ice_candidate_buffering_c5_counterexample :
    (svcHandleIceCandidate (some 7) svcInit).applied = []
    ∧ (svcHandleIceCandidate (some 7) svcInit).reports
        = [("Error adding ICE candidate. No peer connection set up.", true)]
    ∧ (svcHandleOffer "offer-sdp" (svcHandleIceCandidate (some 7) svcInit)).applied
        = [] :=
  ⟨rfl, rfl, rfl⟩

/-- Claim C5, amended.  In the responder hook the buffering discipline
holds with "remote description set" realized as "peer connection
exists": a non-null candidate is enqueued when no peer connection
exists and applied immediately otherwise, and a null candidate is a
no-op that is never enqueued.  The `WebRTConnectionService` handler
has no pending queue: any candidate (even null) arriving before a peer
connection exists only produces an error report and is dropped; with a
connection and a remote description a non-null candidate is applied
immediately and null is a no-op. -/
theorem ice_candidate_buffering_c5_amended
    (r q : ResponderState) (s t : SvcState) (x : Nat) (c : Option Nat)
    (hr : r.peerConnection = false) (hq : q.peerConnection = true)
    (hs : s.pcSignaling = none) (ht : t.pcSignaling.isSome = true)
    (htr : t.remoteDesc ≠ none) :
    handleWebRTCIceCandidate (some x) r = { r with pending := r.pending ++ [x] }
    ∧ handleWebRTCIceCandidate (some x) q = { q with applied := q.applied ++ [x] }
    ∧ handleWebRTCIceCandidate none r = r
    ∧ svcHandleIceCandidate c s
        = { s with reports := s.reports
              ++ [("Error adding ICE candidate. No peer connection set up.", true)] }
    ∧ svcHandleIceCandidate none t = t
    ∧ svcHandleIceCandidate (some x) t = { t with applied := t.applied ++ [x] } := by
  obtain ⟨sig, hsig⟩ := Option.isSome_iff_exists.mp ht
  exact ⟨handleWebRTCIceCandidate_enqueue r x hr,
    handleWebRTCIceCandidate_apply q x hq,
    rfl,
    by simp [svcHandleIceCandidate, hs, svcReport],
    by simp [svcHandleIceCandidate, hsig],
    by simp [svcHandleIceCandidate, hsig, htr]⟩

/-- Witness for the amended C5 at concrete states. -/
theorem ice_candidate_buffering_c5_amended_witness :
    handleWebRTCIceCandidate (some 7) respInit
        = { respInit with pending := respInit.pending ++ [7] }
    ∧ handleWebRTCIceCandidate (some 7) respWithPC
        = { respWithPC with applied := respWithPC.applied ++ [7] }
    ∧ handleWebRTCIceCandidate none respInit = respInit
    ∧ svcHandleIceCandidate (some 7) svcInit
        = { svcInit with reports := svcInit.reports
              ++ [("Error adding ICE candidate. No peer connection set up.", true)] }
    ∧ svcHandleIceCandidate none svcWithRemoteDesc = svcWithRemoteDesc
    ∧ svcHandleIceCandidate (some 7) svcWithRemoteDesc
        = { svcWithRemoteDesc with applied := svcWithRemoteDesc.applied ++ [7] } :=
  ice_candidate_buffering_c5_amended respInit respWithPC svcInit
    svcWithRemoteDesc 7 (some 7) rfl rfl rfl rfl (by decide)

/-- Claim C6.  Applying a remote Answer: with a pending local offer
(signaling state `have-local-offer`, which only a `createOffer` call
can produce) the handler sets the remote description and nothing else
beyond the signaling transition and a status report; in every other
state it reports an error and leaves both descriptions and the sent
log untouched.  In particular a service that never executed
`createOffer` (no local offer was sent) can never be in
`have-local-offer`, so a received Answer always takes the failure
branch there. -/
theorem answer_requires_local_offer_c6 (s t : SvcState) (a b : String)
    (evs : List SvcEvent)
    (hs : s.pcSignaling = some Signaling.haveLocalOffer)
    (ht : t.pcSignaling ≠ some Signaling.haveLocalOffer)
    (hevs : evs.all (fun e => !isCreateOfferEv e) = true) :
    svcHandleAnswer a s
      = { s with remoteDesc := some a, pcSignaling := some Signaling.stable,
                 reports := s.reports ++ [("WebRTC connection established", false)] }
    ∧ (svcHandleAnswer b t).remoteDesc = t.remoteDesc
    ∧ (svcHandleAnswer b t).localDesc = t.localDesc
    ∧ (svcHandleAnswer b t).sent = t.sent
    ∧ (∃ m, (svcHandleAnswer b t).reports = t.reports ++ [(m, true)])
    ∧ (svcRun evs).pcSignaling ≠ some Signaling.haveLocalOffer := by
  refine ⟨by simp [svcHandleAnswer, hs, svcReport], ?_, ?_, ?_, ?_,
    svcFold_no_local_offer evs svcInit hevs (by simp [svcInit])⟩
  all_goals
    cases hpc : t.pcSignaling with
    | none => simp [svcHandleAnswer, hpc, svcReport]
    | some sig =>
        have hsig : ¬sig = Signaling.haveLocalOffer :=
          fun hh => ht (by rw [hpc, hh])
        simp [svcHandleAnswer, hpc, hsig, svcReport]

/-- Witness for C6 at concrete states and a concrete offer-free event
trace. -/
theorem answer_requires_local_offer_c6_witness :
    svcHandleAnswer "answer-sdp" svcHaveLocalOffer
      = { svcHaveLocalOffer with
            remoteDesc := some "answer-sdp",
            pcSignaling := some Signaling.stable,
            reports := svcHaveLocalOffer.reports
              ++ [("WebRTC connection established", false)] }
    ∧ (svcHandleAnswer "answer-sdp" svcInit).remoteDesc = svcInit.remoteDesc
    ∧ (svcHandleAnswer "answer-sdp" svcInit).localDesc = svcInit.localDesc
    ∧ (svcHandleAnswer "answer-sdp" svcInit).sent = svcInit.sent
    ∧ (∃ m, (svcHandleAnswer "answer-sdp" svcInit).reports
          = svcInit.reports ++ [(m, true)])
    ∧ (svcRun [SvcEvent.recvOffer "offer-sdp",
               SvcEvent.recvAnswer "answer-sdp",
               SvcEvent.recvCand (some 3),
               SvcEvent.cleanupEv]).pcSignaling
        ≠ some Signaling.haveLocalOffer :=
  answer_requires_local_offer_c6 svcHaveLocalOffer svcInit
    "answer-sdp" "answer-sdp"
    [SvcEvent.recvOffer "offer-sdp", SvcEvent.recvAnswer "answer-sdp",
     SvcEvent.recvCand (some 3), SvcEvent.cleanupEv]
    rfl (by decide) (by decide)

/-- Claim C3.  Playback toggles and their mirroring: a user toggle on
the primary (`togglePause`) or the secondary (`togglePlayOnSecondary`)
updates the local sink immediately and, with the counterpart context
alive, appends exactly one matching Play / Pause control envelope to
the sent log; a received Play / Pause control signal is applied to the
local sink and never causes a control envelope to be sent back, on
either side. -/
theorem toggle_playback_no_echo_c3 (p : PrimState) (svc : SvcState)
    (q : SecToggleState) (r : ResponderState) (v : SecVState)
    (ready : Bool) (capture : CaptureResult)
    (hv : p.videoPresent = true) (hsvc : p.service = some svc)
    (hopen : svc.remoteOpen = true)
    (hqv : q.videoPresent = true) (hqo : q.openerPresent = true) :
    togglePause p
      = { p with
            videoPaused := !p.videoPaused,
            isPaused := !p.videoPaused,
            service := some { svc with
              sent :=
                svc.sent ++ [Envelope.control (if p.videoPaused then "play" else "pause")] } }
    ∧ primHandleMessage ready capture "play" p
        = { p with videoPaused := false, isPaused := false }
    ∧ primHandleMessage ready capture "pause" p
        = { p with videoPaused := true, isPaused := true }
    ∧ (togglePlayOnSecondary q).1
        = { q with
              videoPaused := !q.videoPaused,
              isPlaying := q.videoPaused,
              sent :=
                q.sent ++ [Envelope.control (if q.videoPaused then "play" else "pause")] }
    ∧ respDispatch (Msg.ctrl "play") r
        = (if r.videoPresent && r.videoPaused then { r with videoPaused := false }
           else r)
    ∧ respDispatch (Msg.ctrl "pause") r
        = (if r.videoPresent && !r.videoPaused then { r with videoPaused := true }
           else r)
    ∧ secVHandleControl "play" v
        = (if v.videoPresent then { v with videoPaused := false, isPlaying := true }
           else v) := by
  refine ⟨?_, ?_, ?_, ?_, ?_, ?_, ?_⟩
  · cases hvp : p.videoPaused <;>
      simp [togglePause, hv, hsvc, hvp, svcSend, hopen]
  · simp [primHandleMessage, hv]
  · simp [primHandleMessage, hv]
  · cases hvp : q.videoPaused <;>
      simp [togglePlayOnSecondary, hqv, hvp, hqo]
  · simp [respDispatch]
  · simp [respDispatch]
  · simp [secVHandleControl]

/-- Witness for C3 at concrete live states. -/
theorem toggle_playback_no_echo_c3_witness :
    togglePause primLive
      = { primLive with
            videoPaused := !primLive.videoPaused,
            isPaused := !primLive.videoPaused,
            service := some { svcInit with
              sent :=
                svcInit.sent ++ [Envelope.control (if primLive.videoPaused then "play" else "pause")] } }
    ∧ primHandleMessage true (.stream [0]) "play" primLive
        = { primLive with videoPaused := false, isPaused := false }
    ∧ primHandleMessage true (.stream [0]) "pause" primLive
        = { primLive with videoPaused := true, isPaused := true }
    ∧ (togglePlayOnSecondary secLive).1
        = { secLive with
              videoPaused := !secLive.videoPaused,
              isPlaying := secLive.videoPaused,
              sent :=
                secLive.sent ++ [Envelope.control (if secLive.videoPaused then "play" else "pause")] }
    ∧ respDispatch (Msg.ctrl "play") respInit
        = (if respInit.videoPresent && respInit.videoPaused then
             { respInit with videoPaused := false }
           else respInit)
    ∧ respDispatch (Msg.ctrl "pause") respInit
        = (if respInit.videoPresent && !respInit.videoPaused then
             { respInit with videoPaused := true }
           else respInit)
    ∧ secVHandleControl "play" secVLive
        = (if secVLive.videoPresent then
             { secVLive with videoPaused := false, isPlaying := true }
           else secVLive) :=
  toggle_playback_no_echo_c3 primLive svcInit secLive respInit secVLive
    true (.stream [0]) rfl rfl rfl rfl rfl

/-- Claim C7.  A `windowReloading` control signal received mid-session
changes nothing except appending a status report — in particular the
service, the liveness interval and the open flag survive — while a
`windowClosed` signal tears the session down: the service reference is
nulled, the liveness interval cleared and the open flag dropped. -/
theorem reloading_vs_closed_c7 (ready : Bool) (capture : CaptureResult)
    (p : PrimState) :
    primHandleMessage ready capture "windowReloading" p
      = { p with reports := p.reports
            ++ [("Secondary window is reloading...", false)] }
    ∧ (primHandleMessage ready capture "windowClosed" p).service = none
    ∧ (primHandleMessage ready capture "windowClosed" p).isSecondaryOpen = false
    ∧ (primHandleMessage ready capture "windowClosed" p).intervalActive = false := by
  refine ⟨by simp [primHandleMessage, primReport], ?_, ?_, ?_⟩ <;>
    cases hi : p.intervalActive <;> cases hs : p.service <;>
      simp [primHandleMessage, primCleanup, primReport, hi, hs]

/-- Counterexample to claim C8.  The claim asserts that a transport
that fails to reach Connected and stays failed past the grace window
triggers exactly one fallbackVideo envelope.  The cited handler has no
grace window and no once-only guard: it posts one fallback envelope at
every transition into `failed` or `disconnected`, so a transport that
passes through `disconnected` and then settles in `failed` (with a
fallback URL and the second window available) receives two fallback
envelopes, not one. -/
theorem fallback_grace_window_c8_counterexample :
    (connTraceEnvelopes { videoSrc := true, secondWindow := true }
        [ConnState.connecting, ConnState.disconnected,
         ConnState.failed]).countP isFallbackEnvelope = 2
    ∧ ¬(connTraceEnvelopes { videoSrc := true, secondWindow := true }
        [ConnState.connecting, ConnState.disconnected,
         ConnState.failed]).countP isFallbackEnvelope = 1 := by
  decide

/-- Claim C8, amended.  With a fallback URL and the second window
available, the Initiator's connection-state handler posts exactly one
fallbackVideo envelope per transition into `failed` or `disconnected`,
immediately at the transition (there is no grace window); a transport
that enters `failed` exactly once and never passes through
`disconnected` therefore gets exactly one fallback envelope, and the
failure handler never emits any offer or answer envelope. -/
theorem fallback_per_failure_transition_c8 (ctx : FallbackCtx)
    (tr : List ConnState)
    (h1 : ctx.videoSrc = true) (h2 : ctx.secondWindow = true) :
    (connTraceEnvelopes ctx tr).countP isFallbackEnvelope
      = tr.countP isFailureState
    ∧ ∀ e ∈ connTraceEnvelopes ctx tr, isOfferOrAnswerEnvelope e = false := by
  induction tr with
  | nil => simp [connTraceEnvelopes]
  | cons st tr ih =>
      obtain ⟨ih1, ih2⟩ := ih
      constructor
      · rw [connTraceEnvelopes, List.countP_append, ih1, List.countP_cons]
        cases st <;>
          simp [onConnectionStateChange, isFailureState, isFallbackEnvelope,
            h1, h2] <;>
          omega
      · intro e he
        rw [connTraceEnvelopes, List.mem_append] at he
        cases he with
        | inl hl =>
            cases st <;>
              simp [onConnectionStateChange, h1, h2] at hl <;>
              simp [hl, isOfferOrAnswerEnvelope]
        | inr hr => exact ih2 e hr

/-- Witness for the amended C8 at a concrete single-failure trace. -/
theorem fallback_per_failure_transition_c8_witness :
    (connTraceEnvelopes { videoSrc := true, secondWindow := true }
        [ConnState.connecting, ConnState.failed]).countP isFallbackEnvelope
      = [ConnState.connecting, ConnState.failed].countP isFailureState
    ∧ ∀ e ∈ connTraceEnvelopes { videoSrc := true, secondWindow := true }
        [ConnState.connecting, ConnState.failed],
        isOfferOrAnswerEnvelope e = false :=
  fallback_per_failure_transition_c8
    { videoSrc := true, secondWindow := true }
    [ConnState.connecting, ConnState.failed] rfl rfl

/-- Claim C9.  Sender-identity filtering: each of the three cited
message listeners (primary controller, part_005 secondary controller,
responder hook) dispatches only messages whose source is the exact
expected counterpart context; a message from any other source leaves
the whole state — including every sent-envelope log — unchanged. -/
theorem sender_identity_filter_c9 (secondaryRef opener : Option Nat)
    (src : Nat) (ready : Bool) (capture : CaptureResult) (m : Msg)
    (p : PrimState) (v : SecVState) (r : ResponderState)
    (h1 : secondaryRef ≠ some src) (h2 : opener ≠ some src) :
    primListener secondaryRef src ready capture m p = p
    ∧ secVListener opener src m v = v
    ∧ respListener opener src m r = r := by
  refine ⟨?_, ?_, ?_⟩ <;>
    simp [primListener, secVListener, respListener, h1, h2]

/-- Witness for C9: a message from a foreign source id reaches none of
the listeners. -/
theorem sender_identity_filter_c9_witness :
    primListener (some 0) 1 true (.stream [0]) (Msg.ctrl "play") primLive
      = primLive
    ∧ secVListener (some 0) 1 (Msg.ctrl "play") secVLive = secVLive
    ∧ respListener (some 0) 1 (Msg.ctrl "play") respInit = respInit :=
  sender_identity_filter_c9 (some 0) (some 0) 1 true (.stream [0])
    (Msg.ctrl "play") primLive secVLive respInit (by decide) (by decide)

/-- Claim C10.  The service constructor throws when the remote window
or the video element is null, and otherwise yields an instance whose
remote-window and video-element fields hold exactly the supplied
non-null references (the fields are non-nullable for the instance's
lifetime: the only later assignment, in `createOffer`, stores its
non-null argument). -/
theorem constructor_requires_refs_c10 (role : PeerRoleT) (w v : Nat)
    (vo : Option Nat) :
    webRTConnectionServiceNew role none vo
      = Except.error "Remote window is required for a WebRTC connection."
    ∧ webRTConnectionServiceNew role (some w) none
      = Except.error "Video element is required for a WebRTC connection."
    ∧ webRTConnectionServiceNew role (some w) (some v)
      = Except.ok { role := role, remoteWindow := w, videoElement := v } :=
  ⟨rfl, rfl, rfl⟩

end VideoShareMovie
